import Mathlib

/-!
Verification of the reconciliation logic of `plugins/modules/network.py`
(`NetworkModule.run`): a declarative create / update / delete wrapper for an
OpenStack network resource.  Python dictionaries are embedded as association
lists over a small `Value` type, the SDK connection is an abstract `Cloud`
record of pure functions, and every remote call made by `run` is recorded in
an explicit trace.
-/

set_option autoImplicit false

/-- Values that can appear in a module argument dictionary or in a remote
network resource: Python `None`, booleans, integers and strings. -/
inductive Value where
  | vnone : Value
  | vbool : Bool → Value
  | vint : Int → Value
  | vstr : String → Value
deriving DecidableEq, Repr

/-- A Python dictionary with string keys, embedded as an association list
(first occurrence of a key wins on lookup; our dictionaries keep keys
unique). -/
abbrev Dict := List (String × Value)

/-- Lookup of `d[k]` returning `none` when the key is absent. -/
def dlookup : Dict → String → Option Value
  | [], _ => none
  | (k0, v0) :: d, k => if k = k0 then some v0 else dlookup d k

/-- Membership test `k in d`. -/
def dmem (d : Dict) (k : String) : Bool :=
  (dlookup d k).isSome

/-- Dictionary access `d[k]` for dictionaries that contain `k`; absent keys
read as `Value.vnone`. -/
def dget (d : Dict) (k : String) : Value :=
  (dlookup d k).getD Value.vnone

/-- Assignment `d[k] = v`: replace the binding of `k` if present, otherwise
append it. -/
def dset : Dict → String → Value → Dict
  | [], k, v => [(k, v)]
  | (k0, v0) :: d, k, v => if k0 = k then (k, v) :: d else (k0, v0) :: dset d k v

/-- The desired state requested by the caller. -/
inductive Stat where
  | present : Stat
  | absent : Stat
deriving DecidableEq, Repr

/-- The module parameters after argument parsing (`argument_spec`,
`network.py` lines 165-178): required `name`, three defaulted booleans, the
desired state and the optional fields, `none` meaning "not supplied". -/
structure Params where
  state : Stat
  name : String
  shared : Bool
  admin_state_up : Bool
  external : Bool
  provider_physical_network : Option String
  provider_network_type : Option String
  provider_segmentation_id : Option Int
  project : Option String
  port_security_enabled : Option Bool
  mtu_size : Option Int
  dns_domain : Option String
deriving DecidableEq, Repr

/-- Modelled from the spec: `OpenStackModule.check_versioned` lives in
`plugins/module_utils/openstack.py`, which is not among the sources here.
Per the spec ("Assemble a candidate attribute set from all provided optional
fields (only those explicitly supplied - absent optional fields must not be
treated as set to null)") it returns exactly the versioned options that were
explicitly supplied, keyed as passed at `network.py` lines 192-195; the SDK
version is taken to satisfy every `min_ver`. -/
def check_versioned (p : Params) : Dict :=
  (match p.mtu_size with
   | some n => [("mtu_size", Value.vint n)]
   | none => []) ++
  (match p.port_security_enabled with
   | some b => [("port_security_enabled", Value.vbool b)]
   | none => []) ++
  (match p.dns_domain with
   | some s => [("dns_domain", Value.vstr s)]
   | none => [])

/-- Python truthiness of an optional string (`if provider_physical_network:`,
lines 209-212): false for `None` and for the empty string. -/
def truthyStr : Option String → Bool
  | some s => s ≠ ""
  | none => false

/-- Python truthiness of an optional integer (`if provider_segmentation_id:`,
line 213): false for `None` and for `0`. -/
def truthyInt : Option Int → Bool
  | some n => n ≠ 0
  | none => false

/-- The candidate attribute set `kwargs` assembled in the present-state
branch, `network.py` lines 192-221: the versioned options, the truthy
provider options, the resolved project id (if any) and the three
always-present booleans. -/
def presentKwargs (p : Params) (project_id : Option String) : Dict :=
  let k0 := check_versioned p
  let k1 := if truthyStr p.provider_physical_network
            then dset k0 "provider_physical_network"
                   (Value.vstr (p.provider_physical_network.getD ""))
            else k0
  let k2 := if truthyStr p.provider_network_type
            then dset k1 "provider_network_type"
                   (Value.vstr (p.provider_network_type.getD ""))
            else k1
  let k3 := if truthyInt p.provider_segmentation_id
            then dset k2 "provider_segmentation_id"
                   (Value.vint (p.provider_segmentation_id.getD 0))
            else k2
  let k4 := match project_id with
            | some pid => dset k3 "project_id" (Value.vstr pid)
            | none => k3
  let k5 := dset k4 "shared" (Value.vbool p.shared)
  let k6 := dset k5 "admin_state_up" (Value.vbool p.admin_state_up)
  dset k6 "is_router_external" (Value.vbool p.external)

/-- The `argument_mappings` table of `network.py` lines 231-239 realised as
`argument_mappings.get(arg, arg)`: argument name to `Network` field name. -/
def mapName (arg : String) : String :=
  if arg = "is_router_external" then "router:external"
  else if arg = "provider_segmentation_id" then "provider:segmentation_id"
  else if arg = "provider_network_type" then "provider:network_type"
  else if arg = "provider_physical_network" then "provider:physical_network"
  else arg

/-- The `non_updatables` list of `network.py` lines 242-245. -/
def nonUpdatables : List String :=
  ["provider_network_type", "provider_physical_network"]

/-- The list of updatable arguments iterated at `network.py` lines 258-260. -/
def updatableArgs : List String :=
  ["shared", "admin_state_up", "is_router_external", "mtu",
   "port_security_enabled", "dns_domain", "provider_segmentation_id"]

/-- One step of the immutability check of lines 246-248: `arg in kwargs and
kwargs[arg] != net[net_property]`. -/
def conflictArg (kwargs net : Dict) (arg : String) : Bool :=
  dmem kwargs arg && decide (dget kwargs arg ≠ dget net (mapName arg))

/-- Whether the loop at lines 246-253 calls `fail_json`. -/
def hasImmutableConflict (kwargs net : Dict) : Bool :=
  nonUpdatables.any (conflictArg kwargs net)

/-- The condition under which lines 262-264 copy `arg` into `update_kwargs`:
`arg in kwargs and kwargs[arg] != net[net_property]` and `kwargs[arg] != None`. -/
def shouldUpd (kwargs net : Dict) (arg : String) : Bool :=
  dmem kwargs arg && decide (dget kwargs arg ≠ dget net (mapName arg))
    && decide (dget kwargs arg ≠ Value.vnone)

/-- The `update_kwargs` dictionary built by the loop at lines 258-264. -/
def computeUpdateKwargs (kwargs net : Dict) : Dict :=
  updatableArgs.foldl
    (fun acc arg => if shouldUpd kwargs net arg
                    then dset acc arg (dget kwargs arg) else acc) []

/-- The `fail_json` message of lines 249-253. -/
def immutableMsg : String :=
  "The following parameters cannot be updated: "
    ++ String.intercalate ", " nonUpdatables
    ++ ". You will need to use state: absent and recreate."

/-- A remote call issued through `self.conn`, with its payload. -/
inductive Call where
  | getProject : String → Call
  | getNetwork : String → Option String → Call
  | create : String → Dict → Call
  | update : Value → Dict → Call
  | delete : String → Call
deriving DecidableEq, Repr

/-- Whether a call mutates the remote store. -/
def isMutating : Call → Bool
  | Call.create _ _ => true
  | Call.update _ _ => true
  | Call.delete _ => true
  | _ => false

/-- The attribute payload carried by a call (empty for lookups and deletes). -/
def callPayload : Call → Dict
  | Call.create _ kw => kw
  | Call.update _ kw => kw
  | _ => []

/-- The result reported by the module: `exit_json` with `changed`, `network`
and `id` for `state=present` (line 273), `exit_json` with only `changed` for
`state=absent` (lines 277, 280), or `fail_json` with a message. -/
inductive Outcome where
  | presentOk : Bool → Dict → Value → Outcome
  | absentOk : Bool → Outcome
  | failed : String → Outcome
deriving DecidableEq, Repr

/-- The `changed` flag of a successful outcome. -/
def changedFlag : Outcome → Option Bool
  | Outcome.presentOk c _ _ => some c
  | Outcome.absentOk c => some c
  | Outcome.failed _ => none

/-- The SDK connection `self.conn` as an abstract record of pure functions:
`get_project` resolves a project reference to its id, `get_network` looks a
network up by name and optional `tenant_id` filter, and the two mutators
return the resulting resource. -/
structure Cloud where
  get_project : String → Option String
  get_network : String → Option String → Option Dict
  create_network : String → Dict → Dict
  update_network : Value → Dict → Dict

/-- The present / absent branch of `run`
(`network.py` lines 208-280), given the resolved project id and the looked-up
network: returns the outcome and the mutating calls it issues. -/
def runBranch (cloud : Cloud) (p : Params) (project_id : Option String)
    (foundNet : Option Dict) : Outcome × List Call :=
  match p.state with
  | Stat.present =>
    let kwargs := presentKwargs p project_id
    match foundNet with
    | none =>
      let net := cloud.create_network p.name kwargs
      (Outcome.presentOk true net (dget net "id"), [Call.create p.name kwargs])
    | some net =>
      if hasImmutableConflict kwargs net then
        (Outcome.failed immutableMsg, [])
      else
        let upd := computeUpdateKwargs kwargs net
        if upd = [] then
          (Outcome.presentOk false net (dget net "id"), [])
        else
          let net2 := cloud.update_network (dget net "id") upd
          (Outcome.presentOk true net2 (dget net2 "id"),
           [Call.update (dget net "id") upd])
  | Stat.absent =>
    match foundNet with
    | none => (Outcome.absentOk false, [])
    | some _ => (Outcome.absentOk true, [Call.delete p.name])

/-- The whole of `NetworkModule.run` (lines 180-280): resolve the project
reference (failing with the message of line 200 when it does not resolve),
look the network up by name and tenant filter (lines 202-206), then take the
present or absent branch.  The second component records every remote call in
order. -/
def run (cloud : Cloud) (p : Params) : Outcome × List Call :=
  match p.project with
  | some r =>
    match cloud.get_project r with
    | none =>
      (Outcome.failed ("Project " ++ r ++ " could not be found"),
       [Call.getProject r])
    | some pid =>
      let br := runBranch cloud p (some pid)
                  (cloud.get_network p.name (some pid))
      (br.1, Call.getProject r :: Call.getNetwork p.name (some pid) :: br.2)
  | none =>
    let br := runBranch cloud p none (cloud.get_network p.name none)
    (br.1, Call.getNetwork p.name none :: br.2)

/-- Project resolution as `run` performs it at lines 197-205: `some pid?`
when no failure occurs (`pid? = none` when no project was given). -/
def resolvedProjectId (cloud : Cloud) (p : Params) : Option (Option String) :=
  match p.project with
  | none => some none
  | some r => (cloud.get_project r).map some

/-- The non-mutating trace prefix contributed by project resolution. -/
def projTrace (p : Params) : List Call :=
  match p.project with
  | some r => [Call.getProject r]
  | none => []

/-- Whether `sub` is a leading segment of `l`. -/
def leadsWith : List Char → List Char → Bool
  | [], _ => true
  | _ :: _, [] => false
  | a :: as, b :: bs => a = b && leadsWith as bs

/-- Whether `sub` occurs contiguously inside `l`. -/
def listHas (sub : List Char) : List Char → Bool
  | [] => sub.isEmpty
  | c :: rest => leadsWith sub (c :: rest) || listHas sub rest

/-- Whether the string `hay` mentions `sub` as a contiguous substring. -/
def strHas (hay sub : String) : Bool :=
  listHas sub.toList hay.toList

/-- Modelled from the spec: the remote resource store ("the external
network-management service holding the authoritative network resource
state").  It holds resolvable projects and the list of network resources. -/
structure Store where
  projects : List (String × String)
  nets : List Dict

/-- A fresh opaque identifier for a newly created resource. -/
def freshId (s : Store) : String :=
  "net-" ++ toString s.nets.length

/-- Whether a stored network matches a lookup by name and optional
`tenant_id` filter (the spec invariant: at most one match per name+filter). -/
def matchNet (nm : String) (filt : Option String) (net : Dict) : Bool :=
  decide (dget net "name" = Value.vstr nm) &&
    (match filt with
     | some pid => decide (dget net "tenant_id" = Value.vstr pid)
     | none => true)

/-- Modelled from the spec: the resource the remote store holds after a
create call - each candidate attribute lands under its remote field name
(field-mapping table of the spec, with `project_id` stored as `tenant_id`)
and every other attribute takes the store default, so that "optional fields
left unspecified must not override the remote store own defaults". -/
def mkNet (fid nm : String) (kw : Dict) : Dict :=
  [("id", Value.vstr fid),
   ("name", Value.vstr nm),
   ("status", Value.vstr "ACTIVE"),
   ("shared", (dlookup kw "shared").getD (Value.vbool false)),
   ("admin_state_up", (dlookup kw "admin_state_up").getD (Value.vbool true)),
   ("router:external", (dlookup kw "is_router_external").getD (Value.vbool false)),
   ("mtu", (dlookup kw "mtu").getD (Value.vint 1500)),
   ("port_security_enabled",
    (dlookup kw "port_security_enabled").getD (Value.vbool true)),
   ("dns_domain", (dlookup kw "dns_domain").getD Value.vnone),
   ("provider:network_type",
    (dlookup kw "provider_network_type").getD (Value.vstr "vxlan")),
   ("provider:physical_network",
    (dlookup kw "provider_physical_network").getD Value.vnone),
   ("provider:segmentation_id",
    (dlookup kw "provider_segmentation_id").getD (Value.vint 1)),
   ("tenant_id", (dlookup kw "project_id").getD (Value.vstr "admin-project"))]

/-- Modelled from the spec: a partial update writes each payload attribute
under its remote field name and leaves every other attribute alone. -/
def applyUpd (net upd : Dict) : Dict :=
  upd.foldl (fun acc kv => dset acc (mapName kv.1) kv.2) net

/-- The connection a concrete store exposes. -/
def cloudOf (s : Store) : Cloud where
  get_project := fun r => s.projects.lookup r
  get_network := fun nm filt => s.nets.find? (matchNet nm filt)
  create_network := fun nm kw => mkNet (freshId s) nm kw
  update_network := fun i kw =>
    ((s.nets.find? (fun n => decide (dget n "id" = i))).map
      (fun n => applyUpd n kw)).getD []

/-- The effect of one remote call on the store (lookups leave it alone). -/
def applyCall (s : Store) : Call → Store
  | Call.create nm kw => { s with nets := s.nets ++ [mkNet (freshId s) nm kw] }
  | Call.update i kw =>
    { s with nets :=
        s.nets.map (fun n => if dget n "id" = i then applyUpd n kw else n) }
  | Call.delete nm =>
    { s with nets :=
        s.nets.filter (fun n => ! decide (dget n "name" = Value.vstr nm)) }
  | _ => s

/-- One reconciliation against a concrete store: the outcome, the trace and
the store the calls leave behind. -/
structure StepResult where
  outcome : Outcome
  calls : List Call
  store : Store

/-- Run the module against a concrete store and apply its calls. -/
def runStore (s : Store) (p : Params) : StepResult :=
  let r := run (cloudOf s) p
  ⟨r.1, r.2, r.2.foldl applyCall s⟩

/-- A sample remote network used by the concrete checks below. -/
def netX : Dict :=
  [("id", Value.vstr "net-7"),
   ("name", Value.vstr "net1"),
   ("status", Value.vstr "ACTIVE"),
   ("shared", Value.vbool false),
   ("admin_state_up", Value.vbool true),
   ("router:external", Value.vbool false),
   ("mtu", Value.vint 1500),
   ("port_security_enabled", Value.vbool true),
   ("dns_domain", Value.vnone),
   ("provider:network_type", Value.vstr "vlan"),
   ("provider:physical_network", Value.vstr "physnet1"),
   ("provider:segmentation_id", Value.vint 100),
   ("tenant_id", Value.vstr "proj-1")]

/-- A sample connection: one resolvable project, one existing network. -/
def cloudX : Cloud where
  get_project := fun r => if r = "demo" then some "proj-1" else none
  get_network := fun nm _ => if nm = "net1" then some netX else none
  create_network := fun nm kw =>
    dset (dset kw "name" (Value.vstr nm)) "id" (Value.vstr "net-new")
  update_network := fun _ kw => applyUpd netX kw

/-- A baseline parameter record: `state=present`, name `net1`, defaulted
booleans, nothing optional supplied. -/
def pBase : Params where
  state := Stat.present
  name := "net1"
  shared := false
  admin_state_up := true
  external := false
  provider_physical_network := none
  provider_network_type := none
  provider_segmentation_id := none
  project := none
  port_security_enabled := none
  mtu_size := none
  dns_domain := none

/-- Parameters that try to change the network type of `netX`. -/
def pConflict : Params :=
  { pBase with provider_network_type := some "gre" }

/-- Parameters whose network type matches `netX` but whose physical network
differs. -/
def pMixed : Params :=
  { pBase with provider_network_type := some "vlan",
               provider_physical_network := some "physnet2" }

/-- Parameters asking for deletion of `net1`. -/
def pAbsent : Params :=
  { pBase with state := Stat.absent }

/-- Parameters naming an unresolvable project. -/
def pGhost : Params :=
  { pBase with project := some "ghost" }

/-- The external-network creation example of the spec. -/
def pExt : Params :=
  { pBase with name := "ext_network", external := true }

/-- Parameters supplying falsy provider values. -/
def pFalsy : Params :=
  { pBase with provider_segmentation_id := some (0 : Int),
               provider_physical_network := some "",
               provider_network_type := some "" }

/-- Parameters creating a fresh network with no optional field supplied. -/
def pFresh : Params :=
  { pBase with name := "n2" }

/-- Parameters whose shared flag differs from `netX`. -/
def pShared : Params :=
  { pBase with shared := true }

/-- A store with one resolvable project and no networks yet. -/
def storeY : Store where
  projects := [("demo", "proj-1")]
  nets := []

/-- Parameters for the double-reconcile check against `storeY`. -/
def pTwice : Params :=
  { pBase with name := "n1", project := some "demo", external := true,
               mtu_size := some (1450 : Int),
               provider_network_type := some "vlan",
               provider_segmentation_id := some (101 : Int) }

/-- Reading a dictionary after an assignment. -/
@[simp] theorem dlookup_dset (d : Dict) (k v k') :
    dlookup (dset d k v) k' = if k' = k then some v else dlookup d k' := by
  induction d with
  | nil => simp [dset, dlookup]
  | cons hd tl ih =>
    obtain ⟨k0, v0⟩ := hd
    by_cases h0 : k0 = k
    · subst h0
      by_cases h1 : k' = k0 <;> simp [dset, dlookup, h1]
    · by_cases h1 : k' = k0
      · have h2 : ¬ k' = k := fun h => h0 (h1.symm.trans h)
        simp [dset, dlookup, h0, h1, h2]
      · simp [dset, dlookup, h0, h1, ih]

/-- Characterization of the versioned argument dictionary: exactly the three
versioned options, present iff supplied. -/
theorem dlookup_check_versioned (p : Params) (k : String) :
    dlookup (check_versioned p) k =
      if k = "mtu_size" then p.mtu_size.map Value.vint
      else if k = "port_security_enabled" then p.port_security_enabled.map Value.vbool
      else if k = "dns_domain" then p.dns_domain.map Value.vstr
      else none := by
  rcases hm : p.mtu_size with _ | m <;>
    rcases hp : p.port_security_enabled with _ | b <;>
      rcases hd : p.dns_domain with _ | s <;>
        by_cases h1 : k = "mtu_size" <;>
          by_cases h2 : k = "port_security_enabled" <;>
            by_cases h3 : k = "dns_domain" <;>
              simp_all [check_versioned, dlookup]

/-- Characterization of the candidate attribute set: each possible key and
the condition under which it is present. -/
theorem dlookup_presentKwargs (p : Params) (pid : Option String) (k : String) :
    dlookup (presentKwargs p pid) k =
      if k = "is_router_external" then some (Value.vbool p.external)
      else if k = "admin_state_up" then some (Value.vbool p.admin_state_up)
      else if k = "shared" then some (Value.vbool p.shared)
      else if k = "project_id" then pid.map Value.vstr
      else if k = "provider_segmentation_id" then
        (if truthyInt p.provider_segmentation_id
         then some (Value.vint (p.provider_segmentation_id.getD 0)) else none)
      else if k = "provider_network_type" then
        (if truthyStr p.provider_network_type
         then some (Value.vstr (p.provider_network_type.getD "")) else none)
      else if k = "provider_physical_network" then
        (if truthyStr p.provider_physical_network
         then some (Value.vstr (p.provider_physical_network.getD "")) else none)
      else if k = "mtu_size" then p.mtu_size.map Value.vint
      else if k = "port_security_enabled" then p.port_security_enabled.map Value.vbool
      else if k = "dns_domain" then p.dns_domain.map Value.vstr
      else none := by
  unfold presentKwargs
  rcases pid with _ | pid <;>
    by_cases hs : truthyInt p.provider_segmentation_id <;>
      by_cases ht : truthyStr p.provider_network_type <;>
        by_cases hp : truthyStr p.provider_physical_network <;>
          simp only [hs, ht, hp, if_true, if_false, Bool.false_eq_true,
            dlookup_dset, dlookup_check_versioned] <;>
          by_cases h1 : k = "is_router_external" <;>
            by_cases h2 : k = "admin_state_up" <;>
              by_cases h3 : k = "shared" <;>
                by_cases h4 : k = "project_id" <;>
                  by_cases h5 : k = "provider_segmentation_id" <;>
                    by_cases h6 : k = "provider_network_type" <;>
                      by_cases h7 : k = "provider_physical_network" <;>
                        simp_all [dlookup_check_versioned]

/-- Characterization of the update-filter loop over any argument list. -/
theorem dlookup_foldl_upd (kwargs net : Dict) (L : List String) (acc : Dict)
    (k : String) :
    dlookup (L.foldl
      (fun acc arg => if shouldUpd kwargs net arg
                      then dset acc arg (dget kwargs arg) else acc) acc) k
      = if k ∈ L ∧ shouldUpd kwargs net k = true
        then some (dget kwargs k) else dlookup acc k := by
  induction L generalizing acc with
  | nil => simp
  | cons a L ih =>
    rw [List.foldl_cons, ih]
    by_cases hk : shouldUpd kwargs net k = true
    · by_cases hmem : k ∈ L
      · simp [hmem, hk]
      · by_cases hak : k = a
        · subst hak
          simp [hmem, hk, dlookup_dset]
        · by_cases ha : shouldUpd kwargs net a = true <;>
            simp [hmem, hk, hak, ha, dlookup_dset]
    · by_cases hak : k = a
      · subst hak
        simp [hk]
      · by_cases ha : shouldUpd kwargs net a = true <;>
          simp [hk, hak, ha, dlookup_dset]

/-- The `update_kwargs` dictionary contains exactly the updatable arguments
that pass the filter of lines 262-264, each with its candidate value. -/
theorem dlookup_computeUpdateKwargs (kwargs net : Dict) (k : String) :
    dlookup (computeUpdateKwargs kwargs net) k =
      if k ∈ updatableArgs ∧ shouldUpd kwargs net k = true
      then some (dget kwargs k) else none := by
  unfold computeUpdateKwargs
  rw [dlookup_foldl_upd]
  simp [dlookup]

/-- When no updatable argument passes the filter, `update_kwargs` stays
empty. -/
theorem computeUpdateKwargs_eq_nil (kwargs net : Dict)
    (h : ∀ a ∈ updatableArgs, shouldUpd kwargs net a = false) :
    computeUpdateKwargs kwargs net = [] := by
  have hgen : ∀ (L : List String) (acc : Dict),
      (∀ a ∈ L, shouldUpd kwargs net a = false) →
      L.foldl (fun acc arg => if shouldUpd kwargs net arg
                              then dset acc arg (dget kwargs arg) else acc) acc
        = acc := by
    intro L
    induction L with
    | nil => intro acc _; rfl
    | cons a L ih =>
      intro acc hL
      rw [List.foldl_cons]
      have ha : shouldUpd kwargs net a = false := hL a (List.mem_cons_self a L)
      rw [ha]
      simp only [Bool.false_eq_true, if_false]
      exact ih acc (fun b hb => hL b (List.mem_cons_of_mem a hb))
  exact hgen updatableArgs [] h

/-- The candidate attribute set never carries a null value. -/
theorem presentKwargs_ne_vnone (p : Params) (pid : Option String) (k : String) :
    dlookup (presentKwargs p pid) k ≠ some Value.vnone := by
  intro hcontra
  rw [dlookup_presentKwargs] at hcontra
  repeat' split at hcontra
  all_goals simp at hcontra

/-- When project resolution succeeds, `run` is the branch logic preceded by
the lookup calls. -/
theorem run_spec (cloud : Cloud) (p : Params) (pid : Option String)
    (hp : resolvedProjectId cloud p = some pid) :
    run cloud p =
      ((runBranch cloud p pid (cloud.get_network p.name pid)).1,
       projTrace p ++ Call.getNetwork p.name pid ::
         (runBranch cloud p pid (cloud.get_network p.name pid)).2) := by
  rcases hpj : p.project with _ | r
  · have hpid : pid = none := by
      unfold resolvedProjectId at hp
      rw [hpj] at hp
      simpa using hp.symm
    subst hpid
    unfold run
    rw [hpj]
    simp [projTrace, hpj]
  · rcases hq : cloud.get_project r with _ | q
    · exfalso
      simp [resolvedProjectId, hpj, hq] at hp
    · have hpid : pid = some q := by
        simp [resolvedProjectId, hpj, hq] at hp
        exact hp.symm
      subst hpid
      unfold run
      rw [hpj]
      simp [hq, projTrace, hpj]

/-- Lookup calls are filtered out of the mutating trace. -/
theorem filter_mutating_trace (p : Params) (nm : String) (f : Option String)
    (rest : List Call) :
    (projTrace p ++ Call.getNetwork nm f :: rest).filter isMutating
      = rest.filter isMutating := by
  rcases hpj : p.project with _ | r
  all_goals simp [projTrace, hpj, isMutating]

/-- The mutating calls of either branch form at most a singleton. -/
theorem runBranch_mutating_le_one (cloud : Cloud) (p : Params)
    (pid : Option String) (foundNet : Option Dict) :
    ((runBranch cloud p pid foundNet).2.filter isMutating).length ≤ 1 := by
  unfold runBranch
  rcases p.state <;> rcases foundNet with _ | net
  all_goals simp [isMutating]
  all_goals split_ifs
  all_goals simp [isMutating]

/-- C8: every invocation of `run` issues at most one mutating remote call:
at most one create, or one update, or one delete, never a combination. -/
theorem c8_at_most_one_mutating_call (cloud : Cloud) (p : Params) :
    ((run cloud p).2.filter isMutating).length ≤ 1 := by
  rcases hres : resolvedProjectId cloud p with _ | pid
  · rcases hpj : p.project with _ | r
    · simp [resolvedProjectId, hpj] at hres
    · rcases hq : cloud.get_project r with _ | q
      · unfold run
        rw [hpj]
        simp [hq, isMutating]
      · exfalso
        simp [resolvedProjectId, hpj, hq] at hres
  · rw [run_spec cloud p pid hres]
    simp only [filter_mutating_trace]
    exact runBranch_mutating_le_one cloud p pid (cloud.get_network p.name pid)

/-- C7: when a supplied project reference does not resolve, `run` fails with
the "could not be found" message of line 200 and its remote trace is just the
project lookup: no network lookup and no create, update or delete happens. -/
theorem c7_project_not_found (cloud : Cloud) (p : Params) (r : String)
    (hpj : p.project = some r) (hq : cloud.get_project r = none) :
    run cloud p =
      (Outcome.failed ("Project " ++ r ++ " could not be found"),
       [Call.getProject r]) := by
  unfold run
  rw [hpj]
  simp [hq]

/-- C6: with `state=absent` the outcome is `changed=false` with no delete
when no network matches, and `changed=true` with exactly one delete call (by
name) when one does; neither outcome carries a resource payload. -/
theorem c6_absent_branch (cloud : Cloud) (p : Params) (pid : Option String)
    (foundNet : Option Dict) (hs : p.state = Stat.absent)
    (hp : resolvedProjectId cloud p = some pid)
    (hn : cloud.get_network p.name pid = foundNet) :
    (run cloud p).1 = Outcome.absentOk foundNet.isSome ∧
    (run cloud p).2.filter isMutating =
      (if foundNet.isSome then [Call.delete p.name] else []) := by
  rw [run_spec cloud p pid hp]
  simp only [filter_mutating_trace, hn]
  unfold runBranch
  rw [hs]
  rcases foundNet with _ | net <;> simp [isMutating]

/-- C1: against an existing resource, the update payload holds exactly the
updatable arguments that are present in the candidate set, differ from the
remote value under the field mapping, and are not null; the mutating trace is
exactly the one update call carrying that payload (or nothing when it is
empty); and when every present candidate argument equals its remote value the
module reports `changed=false` without any mutating call, whatever the other
remote fields hold. -/
theorem c1_update_payload (cloud : Cloud) (p : Params) (pid : Option String)
    (net : Dict) (k : String) (hs : p.state = Stat.present)
    (hp : resolvedProjectId cloud p = some pid)
    (hn : cloud.get_network p.name pid = some net)
    (hconf : hasImmutableConflict (presentKwargs p pid) net = false) :
    (dlookup (computeUpdateKwargs (presentKwargs p pid) net) k =
      if k ∈ updatableArgs ∧ dmem (presentKwargs p pid) k = true ∧
         dget (presentKwargs p pid) k ≠ dget net (mapName k) ∧
         dget (presentKwargs p pid) k ≠ Value.vnone
      then some (dget (presentKwargs p pid) k) else none) ∧
    ((run cloud p).2.filter isMutating =
      (if computeUpdateKwargs (presentKwargs p pid) net = [] then []
       else [Call.update (dget net "id")
               (computeUpdateKwargs (presentKwargs p pid) net)])) ∧
    ((∀ a ∈ updatableArgs, dmem (presentKwargs p pid) a = true →
        dget (presentKwargs p pid) a = dget net (mapName a)) →
      (run cloud p).1 = Outcome.presentOk false net (dget net "id") ∧
      (run cloud p).2.filter isMutating = []) := by
  have hiff : ∀ j : String,
      (j ∈ updatableArgs ∧ shouldUpd (presentKwargs p pid) net j = true) ↔
      (j ∈ updatableArgs ∧ dmem (presentKwargs p pid) j = true ∧
       dget (presentKwargs p pid) j ≠ dget net (mapName j) ∧
       dget (presentKwargs p pid) j ≠ Value.vnone) := by
    intro j
    simp [shouldUpd, and_assoc]
  refine ⟨?_, ?_, ?_⟩
  · rw [dlookup_computeUpdateKwargs, if_congr (hiff k) rfl rfl]
  · rw [run_spec cloud p pid hp]
    simp only [filter_mutating_trace, hn]
    unfold runBranch
    rw [hs]
    simp only [hconf, Bool.false_eq_true, if_false]
    split_ifs with hnil <;> simp [isMutating, hnil]
  · intro hall
    have hnil : computeUpdateKwargs (presentKwargs p pid) net = [] := by
      apply computeUpdateKwargs_eq_nil
      intro a ha
      by_cases hmem : dmem (presentKwargs p pid) a = true
      · have heq := hall a ha hmem
        simp [shouldUpd, heq]
      · simp [shouldUpd, hmem]
    rw [run_spec cloud p pid hp]
    simp only [filter_mutating_trace, hn]
    unfold runBranch
    rw [hs]
    simp [hconf, hnil, isMutating]

/-- C2: against an existing resource, `run` fails with the immutable-field
message exactly when `provider_network_type` or `provider_physical_network`
is present in the candidate set and differs from the corresponding remote
field, and on that failure no mutating call is issued. -/
theorem c2_immutable_conflict (cloud : Cloud) (p : Params)
    (pid : Option String) (net : Dict) (hs : p.state = Stat.present)
    (hp : resolvedProjectId cloud p = some pid)
    (hn : cloud.get_network p.name pid = some net) :
    (((dmem (presentKwargs p pid) "provider_network_type" = true ∧
       dget (presentKwargs p pid) "provider_network_type" ≠
         dget net "provider:network_type") ∨
      (dmem (presentKwargs p pid) "provider_physical_network" = true ∧
       dget (presentKwargs p pid) "provider_physical_network" ≠
         dget net "provider:physical_network"))
     ↔ (run cloud p).1 = Outcome.failed immutableMsg) ∧
    ((run cloud p).1 = Outcome.failed immutableMsg →
      (run cloud p).2.filter isMutating = []) := by
  have hcond : hasImmutableConflict (presentKwargs p pid) net = true ↔
      ((dmem (presentKwargs p pid) "provider_network_type" = true ∧
        dget (presentKwargs p pid) "provider_network_type" ≠
          dget net "provider:network_type") ∨
       (dmem (presentKwargs p pid) "provider_physical_network" = true ∧
        dget (presentKwargs p pid) "provider_physical_network" ≠
          dget net "provider:physical_network")) := by
    simp [hasImmutableConflict, nonUpdatables, conflictArg, mapName]
  rw [run_spec cloud p pid hp]
  simp only [filter_mutating_trace, hn]
  unfold runBranch
  rw [hs]
  by_cases hc : hasImmutableConflict (presentKwargs p pid) net = true
  · simp only [hc, if_true]
    constructor
    · simp [hcond.mp hc]
    · intro _
      simp [isMutating]
  · simp only [hc, if_false]
    rw [hcond] at hc
    constructor
    · constructor
      · intro h
        exact absurd h hc
      · intro h
        split_ifs at h <;> simp_all
    · intro h
      split_ifs at h <;> simp_all

/-- On members, `dlookup` returns exactly the `dget` value. -/
theorem dlookup_eq_some_dget (d : Dict) (k : String) (h : dmem d k = true) :
    dlookup d k = some (dget d k) := by
  unfold dmem at h
  unfold dget
  rcases hl : dlookup d k with _ | v
  · rw [hl] at h
    simp at h
  · simp

/-- Searching an appended list when the first part has no hit. -/
theorem find?_append_none {α : Type} (q : α → Bool) (l1 l2 : List α)
    (h : l1.find? q = none) : (l1 ++ l2).find? q = l2.find? q := by
  induction l1 with
  | nil => simp
  | cons a l1 ih =>
    rcases hq : q a with _ | _
    · rw [List.find?_cons_of_neg _ (by simp [hq])] at h
      rw [List.cons_append, List.find?_cons_of_neg _ (by simp [hq])]
      exact ih h
    · rw [List.find?_cons_of_pos _ hq] at h
      simp at h

/-- Every payload entry of a traced call is an entry of the candidate set. -/
theorem runBranch_payload (cloud : Cloud) (p : Params) (pid : Option String)
    (foundNet : Option Dict) (c : Call)
    (h : c ∈ (runBranch cloud p pid foundNet).2) (j : String) :
    dlookup (callPayload c) j = none ∨
    dlookup (callPayload c) j = dlookup (presentKwargs p pid) j := by
  unfold runBranch at h
  revert h
  rcases p.state <;> rcases foundNet with _ | net <;> intro h
  · simp at h
    subst h
    right
    rfl
  · by_cases h1 : hasImmutableConflict (presentKwargs p pid) net = true
    · simp [h1] at h
    · by_cases h2 : computeUpdateKwargs (presentKwargs p pid) net = []
      · simp [h1, h2] at h
      · simp [h1, h2] at h
        subst h
        by_cases hcnd : (j ∈ updatableArgs ∧
            shouldUpd (presentKwargs p pid) net j = true)
        · right
          show dlookup (computeUpdateKwargs (presentKwargs p pid) net) j
              = dlookup (presentKwargs p pid) j
          rw [dlookup_computeUpdateKwargs, if_pos hcnd]
          have hmem : dmem (presentKwargs p pid) j = true := by
            have h3 := hcnd.2
            unfold shouldUpd at h3
            simp only [Bool.and_eq_true] at h3
            exact h3.1.1
          rw [dlookup_eq_some_dget _ _ hmem]
        · left
          show dlookup (computeUpdateKwargs (presentKwargs p pid) net) j
              = none
          rw [dlookup_computeUpdateKwargs, if_neg hcnd]
  · simp at h
  · simp at h
    subst h
    left
    rfl

/-- Every payload entry of a traced call is an entry of the candidate set,
stated over the full trace of `run`. -/
theorem trace_payload_sub (cloud : Cloud) (p : Params) (pid : Option String)
    (hp : resolvedProjectId cloud p = some pid) (c : Call)
    (hc : c ∈ (run cloud p).2) (j : String) :
    dlookup (callPayload c) j = none ∨
    dlookup (callPayload c) j = dlookup (presentKwargs p pid) j := by
  rw [run_spec cloud p pid hp] at hc
  have hc2 : c ∈ projTrace p ++ Call.getNetwork p.name pid ::
      (runBranch cloud p pid (cloud.get_network p.name pid)).2 := hc
  rcases List.mem_append.mp hc2 with h | h
  · left
    rcases hpj : p.project with _ | r <;> simp [projTrace, hpj] at h
    subst h
    rfl
  · rcases List.mem_cons.mp h with h | h
    · subst h
      left
      rfl
    · exact runBranch_payload cloud p pid (cloud.get_network p.name pid) c h j

/-- C9: with `state=present` and no matching resource, the one mutating call
is a create carrying the full candidate set, the result is `changed=true`
with the created resource and its id, and the candidate set carries the
`shared`, `admin_state_up` and derived `is_router_external` flags. -/
theorem c9_create_path (cloud : Cloud) (p : Params) (pid : Option String)
    (hs : p.state = Stat.present)
    (hp : resolvedProjectId cloud p = some pid)
    (hn : cloud.get_network p.name pid = none) :
    (run cloud p).1 = Outcome.presentOk true
        (cloud.create_network p.name (presentKwargs p pid))
        (dget (cloud.create_network p.name (presentKwargs p pid)) "id") ∧
    (run cloud p).2.filter isMutating =
      [Call.create p.name (presentKwargs p pid)] ∧
    dget (presentKwargs p pid) "shared" = Value.vbool p.shared ∧
    dget (presentKwargs p pid) "admin_state_up"
      = Value.vbool p.admin_state_up ∧
    dget (presentKwargs p pid) "is_router_external"
      = Value.vbool p.external := by
  refine ⟨?_, ?_, ?_, ?_, ?_⟩
  · rw [run_spec cloud p pid hp]
    unfold runBranch
    rw [hs, hn]
  · rw [run_spec cloud p pid hp]
    simp only [filter_mutating_trace]
    unfold runBranch
    rw [hs, hn]
    simp [isMutating]
  · simp [dget, dlookup_presentKwargs]
  · simp [dget, dlookup_presentKwargs]
  · simp [dget, dlookup_presentKwargs]

/-- C4 as amended: whenever the immutable-field check fires, the failure
message is the one fixed string naming the whole `non_updatables` set -
both `provider_network_type` and `provider_physical_network`, whichever of
them actually differs - together with the remove-and-recreate remediation
hint, and no mutating call is issued. -/
theorem c4_conflict_message_fixed (cloud : Cloud) (p : Params)
    (pid : Option String) (net : Dict) (hs : p.state = Stat.present)
    (hp : resolvedProjectId cloud p = some pid)
    (hn : cloud.get_network p.name pid = some net)
    (hc : hasImmutableConflict (presentKwargs p pid) net = true) :
    (run cloud p).1 = Outcome.failed immutableMsg ∧
    immutableMsg = "The following parameters cannot be updated: " ++
      "provider_network_type, provider_physical_network" ++
      ". You will need to use state: absent and recreate." ∧
    strHas immutableMsg "provider_network_type" = true ∧
    strHas immutableMsg "provider_physical_network" = true ∧
    strHas immutableMsg "use state: absent and recreate" = true ∧
    (run cloud p).2.filter isMutating = [] := by
  refine ⟨?_, by decide, by decide, by decide, by decide, ?_⟩
  · rw [run_spec cloud p pid hp]
    unfold runBranch
    rw [hs, hn]
    simp [hc]
  · rw [run_spec cloud p pid hp]
    simp only [filter_mutating_trace, hn]
    unfold runBranch
    rw [hs]
    simp [hc, isMutating]

/-- C4 counterexample: `pMixed` matches the remote `provider:network_type`
of `netX` exactly (no conflict on that field) and differs only on the
physical network, yet the raised message still names
`provider_network_type` - so the message does not name exactly the
differing fields. -/
theorem c4_counterexample :
    (run cloudX pMixed).1 = Outcome.failed immutableMsg ∧
    conflictArg (presentKwargs pMixed none) netX "provider_network_type"
      = false ∧
    strHas immutableMsg "provider_network_type" = true := by
  refine ⟨by decide, by decide, by decide⟩

/-- C5: an optional field left unspecified is omitted from the payload of
every traced call - no null is ever submitted for it - and no payload entry
of any traced call is ever null. -/
theorem c5_unspecified_omitted (cloud : Cloud) (p : Params)
    (pid : Option String) (c : Call) (k : String)
    (hp : resolvedProjectId cloud p = some pid)
    (hc : c ∈ (run cloud p).2) :
    (p.provider_physical_network = none →
      dlookup (callPayload c) "provider_physical_network" = none) ∧
    (p.provider_network_type = none →
      dlookup (callPayload c) "provider_network_type" = none) ∧
    (p.provider_segmentation_id = none →
      dlookup (callPayload c) "provider_segmentation_id" = none) ∧
    (p.project = none → dlookup (callPayload c) "project_id" = none) ∧
    (p.port_security_enabled = none →
      dlookup (callPayload c) "port_security_enabled" = none) ∧
    (p.mtu_size = none → dlookup (callPayload c) "mtu_size" = none) ∧
    (p.dns_domain = none → dlookup (callPayload c) "dns_domain" = none) ∧
    dlookup (callPayload c) k ≠ some Value.vnone := by
  refine ⟨?_, ?_, ?_, ?_, ?_, ?_, ?_, ?_⟩
  · intro h0
    rcases trace_payload_sub cloud p pid hp c hc "provider_physical_network"
      with h | h
    · exact h
    · rw [h, dlookup_presentKwargs]
      simp [truthyStr, h0]
  · intro h0
    rcases trace_payload_sub cloud p pid hp c hc "provider_network_type"
      with h | h
    · exact h
    · rw [h, dlookup_presentKwargs]
      simp [truthyStr, h0]
  · intro h0
    rcases trace_payload_sub cloud p pid hp c hc "provider_segmentation_id"
      with h | h
    · exact h
    · rw [h, dlookup_presentKwargs]
      simp [truthyInt, h0]
  · intro h0
    have hpid : pid = none := by
      simp [resolvedProjectId, h0] at hp
      exact hp.symm
    rcases trace_payload_sub cloud p pid hp c hc "project_id" with h | h
    · exact h
    · rw [h, dlookup_presentKwargs]
      simp [hpid]
  · intro h0
    rcases trace_payload_sub cloud p pid hp c hc "port_security_enabled"
      with h | h
    · exact h
    · rw [h, dlookup_presentKwargs]
      simp [h0]
  · intro h0
    rcases trace_payload_sub cloud p pid hp c hc "mtu_size" with h | h
    · exact h
    · rw [h, dlookup_presentKwargs]
      simp [h0]
  · intro h0
    rcases trace_payload_sub cloud p pid hp c hc "dns_domain" with h | h
    · exact h
    · rw [h, dlookup_presentKwargs]
      simp [h0]
  · rcases trace_payload_sub cloud p pid hp c hc k with h | h
    · rw [h]
      simp
    · rw [h]
      exact presentKwargs_ne_vnone p pid k

/-- C10: an explicitly supplied but falsy provider value (segmentation id 0,
empty physical network or network type) is excluded from the candidate set,
never appears in the payload of any traced call, and never makes the
immutable-field check fire. -/
theorem c10_falsy_provider_values (cloud : Cloud) (p : Params)
    (pid : Option String) (net : Dict) (c : Call)
    (hp : resolvedProjectId cloud p = some pid)
    (hc : c ∈ (run cloud p).2) :
    (p.provider_segmentation_id = some 0 →
      dmem (presentKwargs p pid) "provider_segmentation_id" = false ∧
      dlookup (callPayload c) "provider_segmentation_id" = none) ∧
    (p.provider_physical_network = some "" →
      dmem (presentKwargs p pid) "provider_physical_network" = false ∧
      dlookup (callPayload c) "provider_physical_network" = none ∧
      conflictArg (presentKwargs p pid) net "provider_physical_network"
        = false) ∧
    (p.provider_network_type = some "" →
      dmem (presentKwargs p pid) "provider_network_type" = false ∧
      dlookup (callPayload c) "provider_network_type" = none ∧
      conflictArg (presentKwargs p pid) net "provider_network_type"
        = false) := by
  refine ⟨?_, ?_, ?_⟩
  · intro h0
    have hmem : dmem (presentKwargs p pid) "provider_segmentation_id"
        = false := by
      unfold dmem
      rw [dlookup_presentKwargs]
      simp [truthyInt, h0]
    refine ⟨hmem, ?_⟩
    rcases trace_payload_sub cloud p pid hp c hc "provider_segmentation_id"
      with h | h
    · exact h
    · rw [h, dlookup_presentKwargs]
      simp [truthyInt, h0]
  · intro h0
    have hmem : dmem (presentKwargs p pid) "provider_physical_network"
        = false := by
      unfold dmem
      rw [dlookup_presentKwargs]
      simp [truthyStr, h0]
    refine ⟨hmem, ?_, ?_⟩
    · rcases trace_payload_sub cloud p pid hp c hc
        "provider_physical_network" with h | h
      · exact h
      · rw [h, dlookup_presentKwargs]
        simp [truthyStr, h0]
    · unfold conflictArg
      rw [hmem]
      rfl
  · intro h0
    have hmem : dmem (presentKwargs p pid) "provider_network_type"
        = false := by
      unfold dmem
      rw [dlookup_presentKwargs]
      simp [truthyStr, h0]
    refine ⟨hmem, ?_, ?_⟩
    · rcases trace_payload_sub cloud p pid hp c hc "provider_network_type"
        with h | h
      · exact h
      · rw [h, dlookup_presentKwargs]
        simp [truthyStr, h0]
    · unfold conflictArg
      rw [hmem]
      rfl

/-- The created resource carries the requested name. -/
theorem mkNet_name (fid nm : String) (kw : Dict) :
    dget (mkNet fid nm kw) "name" = Value.vstr nm := rfl

/-- The created resource stores the candidate `shared` flag (or default). -/
theorem mkNet_shared (fid nm : String) (kw : Dict) :
    dget (mkNet fid nm kw) "shared"
      = (dlookup kw "shared").getD (Value.vbool false) := rfl

/-- The created resource stores the candidate admin state (or default). -/
theorem mkNet_admin (fid nm : String) (kw : Dict) :
    dget (mkNet fid nm kw) "admin_state_up"
      = (dlookup kw "admin_state_up").getD (Value.vbool true) := rfl

/-- The created resource stores the candidate external flag under
`router:external`. -/
theorem mkNet_router (fid nm : String) (kw : Dict) :
    dget (mkNet fid nm kw) "router:external"
      = (dlookup kw "is_router_external").getD (Value.vbool false) := rfl

/-- The created resource stores the candidate port security flag. -/
theorem mkNet_portsec (fid nm : String) (kw : Dict) :
    dget (mkNet fid nm kw) "port_security_enabled"
      = (dlookup kw "port_security_enabled").getD (Value.vbool true) := rfl

/-- The created resource stores the candidate DNS domain. -/
theorem mkNet_dns (fid nm : String) (kw : Dict) :
    dget (mkNet fid nm kw) "dns_domain"
      = (dlookup kw "dns_domain").getD Value.vnone := rfl

/-- The created resource stores the candidate network type under
`provider:network_type`. -/
theorem mkNet_ptype (fid nm : String) (kw : Dict) :
    dget (mkNet fid nm kw) "provider:network_type"
      = (dlookup kw "provider_network_type").getD (Value.vstr "vxlan") := rfl

/-- The created resource stores the candidate physical network under
`provider:physical_network`. -/
theorem mkNet_pphys (fid nm : String) (kw : Dict) :
    dget (mkNet fid nm kw) "provider:physical_network"
      = (dlookup kw "provider_physical_network").getD Value.vnone := rfl

/-- The created resource stores the candidate segmentation id under
`provider:segmentation_id`. -/
theorem mkNet_pseg (fid nm : String) (kw : Dict) :
    dget (mkNet fid nm kw) "provider:segmentation_id"
      = (dlookup kw "provider_segmentation_id").getD (Value.vint 1) := rfl

/-- The created resource stores the candidate project id under
`tenant_id`. -/
theorem mkNet_tenant (fid nm : String) (kw : Dict) :
    dget (mkNet fid nm kw) "tenant_id"
      = (dlookup kw "project_id").getD (Value.vstr "admin-project") := rfl

/-- Every mapped candidate argument other than `mtu` reads back from the
created resource with its candidate value. -/
theorem mkNet_reads_back (s : Store) (p : Params) (pid : Option String)
    (a : String) (hamtu : a ≠ "mtu")
    (ha : a ∈ updatableArgs ∨ a ∈ nonUpdatables)
    (hmem : dmem (presentKwargs p pid) a = true) :
    dget (mkNet (freshId s) p.name (presentKwargs p pid)) (mapName a)
      = dget (presentKwargs p pid) a := by
  rcases ha with ha | ha
  · simp only [updatableArgs, List.mem_cons, List.not_mem_nil, or_false]
      at ha
    rcases ha with rfl | rfl | rfl | rfl | rfl | rfl | rfl
    · have hmap : mapName "shared" = "shared" := rfl
      rw [hmap, mkNet_shared, dlookup_eq_some_dget _ _ hmem]
      rfl
    · have hmap : mapName "admin_state_up" = "admin_state_up" := rfl
      rw [hmap, mkNet_admin, dlookup_eq_some_dget _ _ hmem]
      rfl
    · have hmap : mapName "is_router_external" = "router:external" := rfl
      rw [hmap, mkNet_router, dlookup_eq_some_dget _ _ hmem]
      rfl
    · exact absurd rfl hamtu
    · have hmap : mapName "port_security_enabled"
          = "port_security_enabled" := rfl
      rw [hmap, mkNet_portsec, dlookup_eq_some_dget _ _ hmem]
      rfl
    · have hmap : mapName "dns_domain" = "dns_domain" := rfl
      rw [hmap, mkNet_dns, dlookup_eq_some_dget _ _ hmem]
      rfl
    · have hmap : mapName "provider_segmentation_id"
          = "provider:segmentation_id" := rfl
      rw [hmap, mkNet_pseg, dlookup_eq_some_dget _ _ hmem]
      rfl
  · simp only [nonUpdatables, List.mem_cons, List.not_mem_nil, or_false]
      at ha
    rcases ha with rfl | rfl
    · have hmap : mapName "provider_network_type"
          = "provider:network_type" := rfl
      rw [hmap, mkNet_ptype, dlookup_eq_some_dget _ _ hmem]
      rfl
    · have hmap : mapName "provider_physical_network"
          = "provider:physical_network" := rfl
      rw [hmap, mkNet_pphys, dlookup_eq_some_dget _ _ hmem]
      rfl

/-- The candidate set never contains a key named `mtu` (the versioned
option is keyed `mtu_size`). -/
theorem presentKwargs_no_mtu (p : Params) (pid : Option String) :
    dmem (presentKwargs p pid) "mtu" = false := by
  unfold dmem
  rw [dlookup_presentKwargs]
  simp

/-- C3: reconciling the same `state=present` spec twice against a store with
no matching resource reports `changed=true` then `changed=false`, and the
store after the second reconcile is exactly the store after the first. -/
theorem c3_idempotent (s : Store) (p : Params) (pid : Option String)
    (hs : p.state = Stat.present)
    (hp : resolvedProjectId (cloudOf s) p = some pid)
    (hn : (cloudOf s).get_network p.name pid = none) :
    changedFlag (runStore s p).outcome = some true ∧
    changedFlag (runStore (runStore s p).store p).outcome = some false ∧
    (runStore (runStore s p).store p).store = (runStore s p).store := by
  have hrun1 : run (cloudOf s) p =
      (Outcome.presentOk true (mkNet (freshId s) p.name (presentKwargs p pid))
        (dget (mkNet (freshId s) p.name (presentKwargs p pid)) "id"),
       projTrace p ++ Call.getNetwork p.name pid ::
         [Call.create p.name (presentKwargs p pid)]) := by
    rw [run_spec _ _ _ hp]
    unfold runBranch
    rw [hs, hn]
    rfl
  have hstore1 : (runStore s p).store =
      { s with nets := s.nets ++
          [mkNet (freshId s) p.name (presentKwargs p pid)] } := by
    simp only [runStore, hrun1]
    rcases hpj : p.project with _ | r <;> simp [projTrace, hpj, applyCall]
  have hp2 : resolvedProjectId
      (cloudOf { s with nets := s.nets ++
        [mkNet (freshId s) p.name (presentKwargs p pid)] }) p = some pid := hp
  have hn' : s.nets.find? (matchNet p.name pid) = none := hn
  have hmatch : matchNet p.name pid
      (mkNet (freshId s) p.name (presentKwargs p pid)) = true := by
    rcases hpid : pid with _ | x
    · unfold matchNet
      rw [mkNet_name]
      simp
    · unfold matchNet
      rw [mkNet_name, mkNet_tenant]
      have hproj : dlookup (presentKwargs p (some x)) "project_id"
          = some (Value.vstr x) := by
        rw [dlookup_presentKwargs]
        simp
      simp [hproj]
  have hfind : (cloudOf { s with nets := s.nets ++
        [mkNet (freshId s) p.name (presentKwargs p pid)] }).get_network
      p.name pid
      = some (mkNet (freshId s) p.name (presentKwargs p pid)) := by
    show List.find? (matchNet p.name pid)
        (s.nets ++ [mkNet (freshId s) p.name (presentKwargs p pid)]) = _
    rw [find?_append_none _ _ _ hn', List.find?_cons_of_pos _ hmatch]
  have hconf2 : hasImmutableConflict (presentKwargs p pid)
      (mkNet (freshId s) p.name (presentKwargs p pid)) = false := by
    have hgen : ∀ a, a ∈ nonUpdatables →
        conflictArg (presentKwargs p pid)
          (mkNet (freshId s) p.name (presentKwargs p pid)) a = false := by
      intro a ha
      unfold conflictArg
      rcases hmem : dmem (presentKwargs p pid) a with _ | _
      · simp [hmem]
      · have hamtu : a ≠ "mtu" := by
          simp only [nonUpdatables, List.mem_cons, List.not_mem_nil,
            or_false] at ha
          rcases ha with rfl | rfl <;> simp
        have heq := mkNet_reads_back s p pid a hamtu (Or.inr ha) hmem
        simp [heq]
    unfold hasImmutableConflict
    simp only [List.any_eq_false]
    intro a ha
    simp [hgen a ha]
  have hupd2 : computeUpdateKwargs (presentKwargs p pid)
      (mkNet (freshId s) p.name (presentKwargs p pid)) = [] := by
    apply computeUpdateKwargs_eq_nil
    intro a ha
    by_cases hmem : dmem (presentKwargs p pid) a = true
    · by_cases hamtu : a = "mtu"
      · subst hamtu
        rw [presentKwargs_no_mtu p pid] at hmem
        simp at hmem
      · have heq := mkNet_reads_back s p pid a hamtu (Or.inl ha) hmem
        simp [shouldUpd, heq]
    · simp [shouldUpd, hmem]
  have hrun2 : run (cloudOf { s with nets := s.nets ++
        [mkNet (freshId s) p.name (presentKwargs p pid)] }) p =
      (Outcome.presentOk false
        (mkNet (freshId s) p.name (presentKwargs p pid))
        (dget (mkNet (freshId s) p.name (presentKwargs p pid)) "id"),
       projTrace p ++ [Call.getNetwork p.name pid]) := by
    rw [run_spec _ _ _ hp2, hfind]
    unfold runBranch
    rw [hs]
    simp [hconf2, hupd2]
  refine ⟨?_, ?_, ?_⟩
  · simp only [runStore, hrun1]
    rfl
  · rw [hstore1]
    simp only [runStore, hrun2]
    rfl
  · rw [hstore1]
    simp only [runStore, hrun2]
    rcases hpj : p.project with _ | r <;> simp [projTrace, hpj, applyCall]

/-- Witness for C1 at concrete inputs: `pBase` against `netX`, where every
candidate argument equals the remote value, checked at key `shared`. -/
theorem c1_update_payload_witness :
    pBase.state = Stat.present ∧
    resolvedProjectId cloudX pBase = some none ∧
    cloudX.get_network pBase.name none = some netX ∧
    hasImmutableConflict (presentKwargs pBase none) netX = false ∧
    ((dlookup (computeUpdateKwargs (presentKwargs pBase none) netX) "shared" =
      if "shared" ∈ updatableArgs ∧
         dmem (presentKwargs pBase none) "shared" = true ∧
         dget (presentKwargs pBase none) "shared"
           ≠ dget netX (mapName "shared") ∧
         dget (presentKwargs pBase none) "shared" ≠ Value.vnone
      then some (dget (presentKwargs pBase none) "shared") else none) ∧
    ((run cloudX pBase).2.filter isMutating =
      (if computeUpdateKwargs (presentKwargs pBase none) netX = [] then []
       else [Call.update (dget netX "id")
               (computeUpdateKwargs (presentKwargs pBase none) netX)])) ∧
    ((∀ a ∈ updatableArgs, dmem (presentKwargs pBase none) a = true →
        dget (presentKwargs pBase none) a = dget netX (mapName a)) →
      (run cloudX pBase).1 = Outcome.presentOk false netX (dget netX "id") ∧
      (run cloudX pBase).2.filter isMutating = [])) :=
  ⟨rfl, by decide, by decide, by decide,
   c1_update_payload cloudX pBase none netX "shared" rfl (by decide)
     (by decide) (by decide)⟩

/-- Witness for C2 at concrete inputs: `pConflict` asks for network type
`gre` against the `vlan` network `netX`. -/
theorem c2_immutable_conflict_witness :
    pConflict.state = Stat.present ∧
    resolvedProjectId cloudX pConflict = some none ∧
    cloudX.get_network pConflict.name none = some netX ∧
    ((((dmem (presentKwargs pConflict none) "provider_network_type" = true ∧
        dget (presentKwargs pConflict none) "provider_network_type"
          ≠ dget netX "provider:network_type") ∨
       (dmem (presentKwargs pConflict none) "provider_physical_network"
          = true ∧
        dget (presentKwargs pConflict none) "provider_physical_network"
          ≠ dget netX "provider:physical_network"))
      ↔ (run cloudX pConflict).1 = Outcome.failed immutableMsg) ∧
     ((run cloudX pConflict).1 = Outcome.failed immutableMsg →
       (run cloudX pConflict).2.filter isMutating = [])) :=
  ⟨rfl, by decide, by decide,
   c2_immutable_conflict cloudX pConflict none netX rfl (by decide)
     (by decide)⟩

/-- Witness for C3 at concrete inputs: `pTwice` reconciled twice against the
empty store `storeY`. -/
theorem c3_idempotent_witness :
    pTwice.state = Stat.present ∧
    resolvedProjectId (cloudOf storeY) pTwice = some (some "proj-1") ∧
    (cloudOf storeY).get_network pTwice.name (some "proj-1") = none ∧
    (changedFlag (runStore storeY pTwice).outcome = some true ∧
     changedFlag (runStore (runStore storeY pTwice).store pTwice).outcome
       = some false ∧
     (runStore (runStore storeY pTwice).store pTwice).store
       = (runStore storeY pTwice).store) :=
  ⟨rfl, by decide, by decide,
   c3_idempotent storeY pTwice (some "proj-1") rfl (by decide) (by decide)⟩

/-- Witness for the amended C4 at concrete inputs: `pMixed` conflicts with
`netX` on the physical network only. -/
theorem c4_conflict_message_fixed_witness :
    pMixed.state = Stat.present ∧
    resolvedProjectId cloudX pMixed = some none ∧
    cloudX.get_network pMixed.name none = some netX ∧
    hasImmutableConflict (presentKwargs pMixed none) netX = true ∧
    ((run cloudX pMixed).1 = Outcome.failed immutableMsg ∧
     immutableMsg = "The following parameters cannot be updated: " ++
       "provider_network_type, provider_physical_network" ++
       ". You will need to use state: absent and recreate." ∧
     strHas immutableMsg "provider_network_type" = true ∧
     strHas immutableMsg "provider_physical_network" = true ∧
     strHas immutableMsg "use state: absent and recreate" = true ∧
     (run cloudX pMixed).2.filter isMutating = []) :=
  ⟨rfl, by decide, by decide, by decide,
   c4_conflict_message_fixed cloudX pMixed none netX rfl (by decide)
     (by decide) (by decide)⟩

/-- Witness for C5 at concrete inputs: the create call issued for `pFresh`
(no optional field supplied), checked at key `mtu_size`. -/
theorem c5_unspecified_omitted_witness :
    resolvedProjectId cloudX pFresh = some none ∧
    Call.create "n2" (presentKwargs pFresh none) ∈ (run cloudX pFresh).2 ∧
    ((pFresh.provider_physical_network = none →
      dlookup (callPayload (Call.create "n2" (presentKwargs pFresh none)))
        "provider_physical_network" = none) ∧
     (pFresh.provider_network_type = none →
      dlookup (callPayload (Call.create "n2" (presentKwargs pFresh none)))
        "provider_network_type" = none) ∧
     (pFresh.provider_segmentation_id = none →
      dlookup (callPayload (Call.create "n2" (presentKwargs pFresh none)))
        "provider_segmentation_id" = none) ∧
     (pFresh.project = none →
      dlookup (callPayload (Call.create "n2" (presentKwargs pFresh none)))
        "project_id" = none) ∧
     (pFresh.port_security_enabled = none →
      dlookup (callPayload (Call.create "n2" (presentKwargs pFresh none)))
        "port_security_enabled" = none) ∧
     (pFresh.mtu_size = none →
      dlookup (callPayload (Call.create "n2" (presentKwargs pFresh none)))
        "mtu_size" = none) ∧
     (pFresh.dns_domain = none →
      dlookup (callPayload (Call.create "n2" (presentKwargs pFresh none)))
        "dns_domain" = none) ∧
     dlookup (callPayload (Call.create "n2" (presentKwargs pFresh none)))
       "mtu_size" ≠ some Value.vnone) :=
  ⟨by decide, by decide,
   c5_unspecified_omitted cloudX pFresh none
     (Call.create "n2" (presentKwargs pFresh none)) "mtu_size" (by decide)
     (by decide)⟩

/-- Witness for C6 at concrete inputs: `pAbsent` against the existing
`netX`. -/
theorem c6_absent_branch_witness :
    pAbsent.state = Stat.absent ∧
    resolvedProjectId cloudX pAbsent = some none ∧
    cloudX.get_network pAbsent.name none = some netX ∧
    ((run cloudX pAbsent).1 = Outcome.absentOk (some netX).isSome ∧
     (run cloudX pAbsent).2.filter isMutating =
       (if (some netX).isSome then [Call.delete pAbsent.name] else [])) :=
  ⟨rfl, by decide, by decide,
   c6_absent_branch cloudX pAbsent none (some netX) rfl (by decide)
     (by decide)⟩

/-- Witness for C7 at concrete inputs: `pGhost` names a project `cloudX`
cannot resolve. -/
theorem c7_project_not_found_witness :
    pGhost.project = some "ghost" ∧
    cloudX.get_project "ghost" = none ∧
    run cloudX pGhost =
      (Outcome.failed ("Project " ++ "ghost" ++ " could not be found"),
       [Call.getProject "ghost"]) :=
  ⟨rfl, by decide, c7_project_not_found cloudX pGhost "ghost" rfl (by decide)⟩

/-- Witness for C9 at concrete inputs: the external-network creation example
of the spec, `pExt` against a store with no such network. -/
theorem c9_create_path_witness :
    pExt.state = Stat.present ∧
    resolvedProjectId cloudX pExt = some none ∧
    cloudX.get_network pExt.name none = none ∧
    ((run cloudX pExt).1 = Outcome.presentOk true
        (cloudX.create_network pExt.name (presentKwargs pExt none))
        (dget (cloudX.create_network pExt.name (presentKwargs pExt none))
          "id") ∧
     (run cloudX pExt).2.filter isMutating =
       [Call.create pExt.name (presentKwargs pExt none)] ∧
     dget (presentKwargs pExt none) "shared" = Value.vbool pExt.shared ∧
     dget (presentKwargs pExt none) "admin_state_up"
       = Value.vbool pExt.admin_state_up ∧
     dget (presentKwargs pExt none) "is_router_external"
       = Value.vbool pExt.external) :=
  ⟨rfl, by decide, by decide,
   c9_create_path cloudX pExt none rfl (by decide) (by decide)⟩

/-- Witness for C10 at concrete inputs: `pFalsy` supplies segmentation id 0
and empty provider strings against `netX`; the network lookup call is in the
trace. -/
theorem c10_falsy_provider_values_witness :
    resolvedProjectId cloudX pFalsy = some none ∧
    Call.getNetwork "net1" none ∈ (run cloudX pFalsy).2 ∧
    ((pFalsy.provider_segmentation_id = some 0 →
      dmem (presentKwargs pFalsy none) "provider_segmentation_id" = false ∧
      dlookup (callPayload (Call.getNetwork "net1" none))
        "provider_segmentation_id" = none) ∧
     (pFalsy.provider_physical_network = some "" →
      dmem (presentKwargs pFalsy none) "provider_physical_network" = false ∧
      dlookup (callPayload (Call.getNetwork "net1" none))
        "provider_physical_network" = none ∧
      conflictArg (presentKwargs pFalsy none) netX
        "provider_physical_network" = false) ∧
     (pFalsy.provider_network_type = some "" →
      dmem (presentKwargs pFalsy none) "provider_network_type" = false ∧
      dlookup (callPayload (Call.getNetwork "net1" none))
        "provider_network_type" = none ∧
      conflictArg (presentKwargs pFalsy none) netX
        "provider_network_type" = false)) :=
  ⟨by decide, by decide,
   c10_falsy_provider_values cloudX pFalsy none netX
     (Call.getNetwork "net1" none) (by decide) (by decide)⟩
